import Mathlib

/-!
Shallow embedding of the CC26x2 GPIO driver (src/chips/cc26x2/src/gpio.rs).

The driver configures 32 physical pins through one per-pin multiplex-control
(IOC configuration) register each, drives digital output through shared
set/clear/toggle/output-enable registers, and demultiplexes the combined
32-bit event-flag register to per-pin callbacks.

Register model: the per-pin IOC configuration register is represented as a
record of its bit-fields.  A `write` of a field-value sum (the tock-registers
primitive used by the driver) replaces the whole register: named fields take
the given values and every unnamed field becomes zero.  A `modify` is a
read-modify-write: named fields take the given values and every unnamed
field keeps its old value.  These primitives are the external register
interface the driver builds on and are embedded by their documented
semantics.

Every operation returns, besides its result, the list of hardware effects
(register writes, callback invocations, NVIC calls) it performs, in order.
-/

namespace CC26x2Gpio

/-- Number of GPIO pins on the chip (NUM_PINS in gpio.rs). -/
def numPins : Nat := 32

/-- Modelled from the spec: the field encodings of the per-pin IOC
configuration register live in the ioc module, which is not part of the
given sources.  The spec describes the register as bit-fields for
function-select (PORT_ID), drive strength, pull mode (three defined values),
slew-rate reduction, hysteresis, I/O mode (normal / open-drain), wake-up
configuration, input-enable, edge-detect mode (three edge values) and
edge-IRQ-enable.  The encodings below are arbitrary but distinct where the
spec requires distinctness. -/
structure IocConfig where
  portId : Nat
  currentMode : Nat
  driveStrength : Nat
  pull : Nat
  slewRed : Nat
  hystEn : Nat
  ioMode : Nat
  wakeupCfg : Nat
  inputEn : Nat
  edgeDet : Nat
  edgeIrqEn : Nat
  deriving DecidableEq, Repr

/-- Modelled from the spec: PORT_ID function-select code for plain GPIO. -/
def portIdGpio : Nat := 0
/-- Modelled from the spec: PORT_ID code for the 32 kHz always-on clock. -/
def portIdAonClk32k : Nat := 7
/-- Modelled from the spec: PORT_ID code routing the pin to the analog (AUX) domain. -/
def portIdAuxDomain : Nat := 8
/-- Modelled from the spec: PORT_ID code for I2C master SDA. -/
def portIdI2cMssda : Nat := 13
/-- Modelled from the spec: PORT_ID code for I2C master SCL. -/
def portIdI2cMsscl : Nat := 14
/-- Modelled from the spec: PORT_ID code for UART0 RX. -/
def portIdUart0Rx : Nat := 15
/-- Modelled from the spec: PORT_ID code for UART0 TX. -/
def portIdUart0Tx : Nat := 16
/-- Modelled from the spec: PORT_ID code for UART1 RX. -/
def portIdUart1Rx : Nat := 18
/-- Modelled from the spec: PORT_ID code for UART1 TX. -/
def portIdUart1Tx : Nat := 19

/-- Modelled from the spec: drive-strength field, automatic setting. -/
def driveStrengthAuto : Nat := 0
/-- Modelled from the spec: drive-strength field, maximum setting. -/
def driveStrengthMax : Nat := 3
/-- Modelled from the spec: current-mode field, low-current setting. -/
def currentModeLow : Nat := 0
/-- Modelled from the spec: pull field, pull-down resistor (one of three distinct defined values). -/
def pullFieldDown : Nat := 1
/-- Modelled from the spec: pull field, pull-up resistor. -/
def pullFieldUp : Nat := 2
/-- Modelled from the spec: pull field, no pull resistor. -/
def pullFieldNone : Nat := 3
/-- Modelled from the spec: I/O-mode field, normal (push-pull) mode. -/
def ioModeNormal : Nat := 0
/-- Modelled from the spec: I/O-mode field, open-drain mode (used for I2C). -/
def ioModeOpenDrain : Nat := 4
/-- Modelled from the spec: edge-detect field, falling edge (one of three distinct edge codes). -/
def edgeDetFalling : Nat := 1
/-- Modelled from the spec: edge-detect field, rising edge. -/
def edgeDetRising : Nat := 2
/-- Modelled from the spec: edge-detect field, both edges. -/
def edgeDetBoth : Nat := 3

/-- Modelled from the spec: the eight general-purpose timer compare channels
(pwm::Timer in the pwm module, not part of the given sources). -/
inductive Timer where
  | gpt0a | gpt0b | gpt1a | gpt1b | gpt2a | gpt2b | gpt3a | gpt3b
  deriving DecidableEq, Repr

/-- Modelled from the spec: the fixed 1:1 timer-to-port-event mapping; each
timer compare channel is routed to one of eight distinct PORT_EVENT
function-select codes. -/
def portEventCode : Timer → Nat
  | .gpt0a => 23
  | .gpt0b => 24
  | .gpt1a => 25
  | .gpt1b => 26
  | .gpt2a => 27
  | .gpt2b => 28
  | .gpt3a => 29
  | .gpt3b => 30

/-- Interrupt edge selector (kernel::hil::gpio::InterruptEdge). -/
inductive InterruptEdge where
  | fallingEdge | risingEdge | eitherEdge
  deriving DecidableEq, Repr

/-- Floating (pull resistor) state (kernel::hil::gpio::FloatingState). -/
inductive FloatingState where
  | pullUp | pullDown | pullNone
  deriving DecidableEq, Repr

/-- Pin configuration summary (kernel::hil::gpio::Configuration). -/
inductive Configuration where
  | input | output | inputOutput | other
  deriving DecidableEq, Repr

/-- One observable hardware effect of a driver operation, in program order:
a full replacing write or a read-modify-write of a pin's IOC configuration
register, a write of the shared output-enable (DOE) register, a write of the
event-flag register (write-1-to-clear), a write of a timer event-routing
selector register, a pin callback invocation, or an NVIC call. -/
inductive Event where
  | iocWrite (pin : Nat) (value : IocConfig)
  | iocModify (pin : Nat) (value : IocConfig)
  | doeWrite (value : Nat)
  | evflagsWrite (value : Nat)
  | evtRouteWrite (timer : Timer) (code : Nat)
  | fired (pin : Nat)
  | nvicClearPending
  | nvicEnable
  deriving DecidableEq, Repr

/-- The per-pin hardware state the configuration operations touch: the pin's
IOC configuration register and the shared output-enable (DOE) register. -/
structure PinState where
  cfg : IocConfig
  doe : Nat
  deriving DecidableEq, Repr

/-- GPIOPin::standard_io: one full replacing write of the pin's IOC
configuration register from the given function-select code and input-enable
field value; all fields not named in the write (I/O mode, current mode,
edge-detect, edge-IRQ-enable) are zeroed by the replacing write. -/
def standard_io (port_id : Nat) (input_en : Nat) (pin : Nat) (s : PinState) :
    PinState × List Event :=
  let c : IocConfig :=
    { portId := port_id
      currentMode := 0
      driveStrength := driveStrengthAuto
      pull := pullFieldNone
      slewRed := 0
      hystEn := 0
      ioMode := 0
      wakeupCfg := 0
      inputEn := input_en
      edgeDet := 0
      edgeIrqEn := 0 }
  ({ s with cfg := c }, [Event.iocWrite pin c])

/-- GPIOPin::standard_input: standard_io with INPUT_EN set. -/
def standard_input (port_id : Nat) (pin : Nat) (s : PinState) :
    PinState × List Event :=
  standard_io port_id 1 pin s

/-- GPIOPin::standard_output: standard_io with INPUT_EN clear. -/
def standard_output (port_id : Nat) (pin : Nat) (s : PinState) :
    PinState × List Event :=
  standard_io port_id 0 pin s

/-- GPIOPin::enable_gpio: read-modify-write selecting the GPIO function code
in the pin's IOC configuration register; all other fields keep their values. -/
def enable_gpio (pin : Nat) (s : PinState) : PinState × List Event :=
  let c := { s.cfg with portId := portIdGpio }
  ({ s with cfg := c }, [Event.iocModify pin c])

/-- GPIOPin::enable_output: read-modify-write clearing INPUT_EN. -/
def enable_output (pin : Nat) (s : PinState) : PinState × List Event :=
  let c := { s.cfg with inputEn := 0 }
  ({ s with cfg := c }, [Event.iocModify pin c])

/-- GPIOPin::enable_input: read-modify-write setting INPUT_EN. -/
def enable_input (pin : Nat) (s : PinState) : PinState × List Event :=
  let c := { s.cfg with inputEn := 1 }
  ({ s with cfg := c }, [Event.iocModify pin c])

/-- The edge-mode translation inside GPIOPin::enable_int. -/
def ioc_edge_mode : InterruptEdge → Nat
  | .fallingEdge => edgeDetFalling
  | .risingEdge => edgeDetRising
  | .eitherEdge => edgeDetBoth

/-- GPIOPin::enable_int: one read-modify-write setting the edge-detect mode
(from the edge translation) and the edge-IRQ-enable field together. -/
def enable_int (mode : InterruptEdge) (pin : Nat) (s : PinState) :
    PinState × List Event :=
  let c := { s.cfg with edgeDet := ioc_edge_mode mode, edgeIrqEn := 1 }
  ({ s with cfg := c }, [Event.iocModify pin c])

/-- GPIOPin::disable_interrupt: one read-modify-write clearing only the
edge-IRQ-enable field. -/
def disable_interrupt (pin : Nat) (s : PinState) : PinState × List Event :=
  let c := { s.cfg with edgeIrqEn := 0 }
  ({ s with cfg := c }, [Event.iocModify pin c])

/-- GPIOPin::set_i2c_input: one full replacing write with open-drain I/O mode
and INPUT_EN set; fields not named in the write are zeroed. -/
def set_i2c_input (port_id : Nat) (pin : Nat) (s : PinState) :
    PinState × List Event :=
  let c : IocConfig :=
    { portId := port_id
      currentMode := 0
      driveStrength := driveStrengthAuto
      pull := pullFieldNone
      slewRed := 0
      hystEn := 0
      ioMode := ioModeOpenDrain
      wakeupCfg := 0
      inputEn := 1
      edgeDet := 0
      edgeIrqEn := 0 }
  ({ s with cfg := c }, [Event.iocWrite pin c])

/-- GPIOPin::enable_i2c_sda. -/
def enable_i2c_sda (pin : Nat) (s : PinState) : PinState × List Event :=
  set_i2c_input portIdI2cMssda pin s

/-- GPIOPin::enable_i2c_scl. -/
def enable_i2c_scl (pin : Nat) (s : PinState) : PinState × List Event :=
  set_i2c_input portIdI2cMsscl pin s

/-- GPIOPin::pwm_output: one full replacing write with maximum drive
strength, normal I/O mode and INPUT_EN clear; fields not named in the write
are zeroed. -/
def pwm_output (port_id : Nat) (pin : Nat) (s : PinState) :
    PinState × List Event :=
  let c : IocConfig :=
    { portId := port_id
      currentMode := 0
      driveStrength := driveStrengthMax
      pull := pullFieldNone
      slewRed := 0
      hystEn := 0
      ioMode := ioModeNormal
      wakeupCfg := 0
      inputEn := 0
      edgeDet := 0
      edgeIrqEn := 0 }
  ({ s with cfg := c }, [Event.iocWrite pin c])

/-- GPIOPin::enable_pwm: write the timer's event-routing selector register
(routing the timer's compare event to a PORT_EVENT code), then configure the
pin for PWM output with that PORT_EVENT code as function select. -/
def enable_pwm (pwm : Timer) (pin : Nat) (s : PinState) :
    PinState × List Event :=
  let port_id := portEventCode pwm
  let r := pwm_output port_id pin s
  (r.1, Event.evtRouteWrite pwm port_id :: r.2)

/-- GPIOPin::enable_uart0_rx. -/
def enable_uart0_rx (pin : Nat) (s : PinState) : PinState × List Event :=
  standard_input portIdUart0Rx pin s

/-- GPIOPin::enable_uart0_tx. -/
def enable_uart0_tx (pin : Nat) (s : PinState) : PinState × List Event :=
  standard_output portIdUart0Tx pin s

/-- GPIOPin::enable_uart1_rx. -/
def enable_uart1_rx (pin : Nat) (s : PinState) : PinState × List Event :=
  standard_input portIdUart1Rx pin s

/-- GPIOPin::enable_uart1_tx. -/
def enable_uart1_tx (pin : Nat) (s : PinState) : PinState × List Event :=
  standard_output portIdUart1Tx pin s

/-- GPIOPin::enable_analog_input. -/
def enable_analog_input (pin : Nat) (s : PinState) : PinState × List Event :=
  standard_input portIdAuxDomain pin s

/-- GPIOPin::enable_analog_output. -/
def enable_analog_output (pin : Nat) (s : PinState) : PinState × List Event :=
  standard_output portIdAuxDomain pin s

/-- GPIOPin::enable_32khz_system_clock_input: one full replacing write with
the 32 kHz clock function code, low current mode, hysteresis enabled and
INPUT_EN set; fields not named in the write are zeroed. -/
def enable_32khz_system_clock_input (pin : Nat) (s : PinState) :
    PinState × List Event :=
  let c : IocConfig :=
    { portId := portIdAonClk32k
      currentMode := currentModeLow
      driveStrength := driveStrengthAuto
      pull := pullFieldNone
      slewRed := 0
      hystEn := 1
      ioMode := ioModeNormal
      wakeupCfg := 0
      inputEn := 1
      edgeDet := 0
      edgeIrqEn := 0 }
  ({ s with cfg := c }, [Event.iocWrite pin c])

/-- The pull-field translation inside set_floating_state. -/
def pull_field : FloatingState → Nat
  | .pullDown => pullFieldDown
  | .pullUp => pullFieldUp
  | .pullNone => pullFieldNone

/-- gpio::Configure::set_floating_state for GPIOPin: one read-modify-write
updating only the pull field of the pin's IOC configuration register. -/
def set_floating_state (mode : FloatingState) (pin : Nat) (s : PinState) :
    PinState × List Event :=
  let c := { s.cfg with pull := pull_field mode }
  ({ s with cfg := c }, [Event.iocModify pin c])

/-- gpio::Configure::deactivate_to_low_power: set_floating_state with PullNone. -/
def deactivate_to_low_power (pin : Nat) (s : PinState) : PinState × List Event :=
  set_floating_state FloatingState.pullNone pin s

/-- A bit-field is considered set when its value is non-zero
(tock-registers is_set). -/
def isSet (v : Nat) : Bool := v != 0

/-- gpio::Configure::is_input for GPIOPin: tests the INPUT_EN field of the
pin's IOC configuration register. -/
def is_input (c : IocConfig) : Bool := isSet c.inputEn

/-- gpio::Configure::is_output for GPIOPin: the negation of the INPUT_EN
test of the pin's IOC configuration register. -/
def is_output (c : IocConfig) : Bool := ! isSet c.inputEn

/-- gpio::Configure::configuration for GPIOPin: match on the pair of the
is_input and is_output readings. -/
def configuration (c : IocConfig) : Configuration :=
  let input := is_input c
  let output := is_output c
  let config := (input, output)
  match config with
  | (false, false) => Configuration.other
  | (false, true) => Configuration.output
  | (true, false) => Configuration.input
  | (true, true) => Configuration.inputOutput

/-- gpio::Configure::make_output for GPIOPin: enable_gpio (read-modify-write
of the function select), then enable_output (read-modify-write clearing
INPUT_EN), then a read-modify-write of the shared DOE register or-ing in the
pin's mask; returns Configuration::Output. -/
def make_output (pin : Nat) (s : PinState) :
    PinState × List Event × Configuration :=
  let r1 := enable_gpio pin s
  let r2 := enable_output pin r1.1
  let doe := r2.1.doe ||| (1 <<< pin)
  ({ r2.1 with doe := doe },
   r1.2 ++ r2.2 ++ [Event.doeWrite doe],
   Configuration.output)

/-- gpio::Configure::make_input for GPIOPin: enable_gpio then enable_input;
returns Configuration::Input. -/
def make_input (pin : Nat) (s : PinState) :
    PinState × List Event × Configuration :=
  let r1 := enable_gpio pin s
  let r2 := enable_input pin r1.1
  (r2.1, r1.2 ++ r2.2, Configuration.input)

/-- gpio::Configure::disable_input for GPIOPin: a no-op that returns the
current configuration; no register is written. -/
def disable_input (pin : Nat) (s : PinState) :
    PinState × List Event × Configuration :=
  (s, [], configuration s.cfg)

/-- gpio::Configure::disable_output for GPIOPin: enable_input (become an
input), then return the resulting configuration. -/
def disable_output (pin : Nat) (s : PinState) :
    PinState × List Event × Configuration :=
  let r := enable_input pin s
  (r.1, r.2, configuration r.1.cfg)

/-- gpio::Interrupt::is_pending for GPIOPin: the body is a call of the
unimplemented macro, which signals a fatal "not implemented" condition and
never produces a boolean; modelled as an Except value carrying the macro's
message. -/
def is_pending (pin : Nat) : Except String Bool :=
  Except.error "Not supported by chip?"

/-- The state of the shared registers Port::handle_interrupt touches: the
combined 32-bit event-flag register. -/
structure PortState where
  evflags : Nat
  deriving DecidableEq, Repr

/-- Write-1-to-clear semantics of the event-flag register, from the spec:
writing a value clears every bit that is 1 in the written value (within the
32-bit register) and leaves every other bit untouched. -/
def w1cWrite (reg written : Nat) : Nat :=
  reg &&& ((2 ^ 32 - 1) ^^^ (written % 2 ^ 32))

/-- GPIOPin::handle_interrupt: invoke the registered callback if there is
one; pins without a callback are silently skipped.  The callback slots are
given as a predicate from pin index to presence of a client. -/
def pin_handle_interrupt (clients : Nat → Bool) (pin : Nat) : List Event :=
  if clients pin then [Event.fired pin] else []

/-- The dispatch loop of Port::handle_interrupt: while the remaining flags
are non-zero and the index is below the pin count, test the low bit, fire
the pin at the current index when it is set, then shift right and advance.
The fuel argument counts the remaining loop iterations (pin count minus
current index), so fuel zero is the index bound of the loop guard. -/
def dispatch_loop (clients : Nat → Bool) : Nat → Nat → Nat → List Event
  | 0, _, _ => []
  | fuel + 1, evflags, count =>
    if evflags = 0 then []
    else
      (if evflags &&& 1 != 0 then pin_handle_interrupt clients count else [])
        ++ dispatch_loop clients fuel (evflags >>> 1) (count + 1)

/-- Port::handle_interrupt: read the event-flag register once into a
snapshot, write the snapshot back (write-1-to-clear), walk the snapshot's
bits from index 0 dispatching callbacks, then clear the NVIC pending flag
and re-enable the NVIC line. -/
def port_handle_interrupt (clients : Nat → Bool) (s : PortState) :
    PortState × List Event :=
  let evflags := s.evflags
  let s' : PortState := { evflags := w1cWrite s.evflags evflags }
  (s',
   Event.evflagsWrite evflags
     :: (dispatch_loop clients numPins evflags 0
          ++ [Event.nvicClearPending, Event.nvicEnable]))

/-- An event that touches a pin's IOC (multiplex-control) configuration
register, by either kind of write. -/
def isIocCfgEvent : Event → Bool
  | .iocWrite _ _ => true
  | .iocModify _ _ => true
  | _ => false

/-- A configuration operation issues exactly one IOC-register access, that
access is a full replacing write to the operated pin, and the written value
(equal to the resulting configuration) is the same from every starting
state, so every field of the register is determined by the function alone. -/
def one_full_replacing_write (op : Nat → PinState → PinState × List Event) : Prop :=
  ∀ (pin : Nat) (s s' : PinState),
    (op pin s).2.filter isIocCfgEvent = [Event.iocWrite pin (op pin s').1.cfg]

/-- Modelled from the spec's words, for comparison with the source-derived
configuration: the query is derived from the input-enable and output-enable
flag readings alone, returning Other when neither is asserted, Output when
only output-enable is asserted, Input when only input-enable is asserted,
and InputOutput when both are asserted. -/
def query_configuration_spec (input_flag output_flag : Bool) : Configuration :=
  if !input_flag && !output_flag then Configuration.other
  else if output_flag && !input_flag then Configuration.output
  else if input_flag && !output_flag then Configuration.input
  else Configuration.inputOutput

/-- A concrete all-zero pin state, used to instantiate theorems at one
explicit input. -/
def pinState0 : PinState :=
  { cfg :=
      { portId := 0
        currentMode := 0
        driveStrength := 0
        pull := 0
        slewRed := 0
        hystEn := 0
        ioMode := 0
        wakeupCfg := 0
        inputEn := 0
        edgeDet := 0
        edgeIrqEn := 0 }
    doe := 0 }

/-- Closed form of the dispatch loop: it fires, in ascending index order,
exactly the pins whose snapshot bit is set and that have a registered
client, for indices within the fuel window starting at count. -/
theorem dispatch_loop_eq (clients : Nat → Bool) (fuel : Nat) :
    ∀ (ev count : Nat),
      dispatch_loop clients fuel ev count
        = ((List.range fuel).filter
              (fun j => ev.testBit j && clients (count + j))).map
            (fun j => Event.fired (count + j)) := by
  induction fuel with
  | zero => intro ev count; rfl
  | succ fuel ih =>
    intro ev count
    by_cases h : ev = 0
    · subst h
      simp [dispatch_loop, Nat.zero_testBit]
    · have hstep : dispatch_loop clients (fuel + 1) ev count
          = (if ev &&& 1 != 0 then pin_handle_interrupt clients count else [])
              ++ dispatch_loop clients fuel (ev >>> 1) (count + 1) := by
        simp [dispatch_loop, h]
      have hbit : (ev &&& 1 != 0) = ev.testBit 0 := by
        rw [Nat.and_one_is_mod, Nat.testBit_zero]
        rcases Nat.mod_two_eq_zero_or_one ev with h2 | h2 <;> simp [h2]
      have hpred : (fun j => (ev >>> 1).testBit j && clients (count + 1 + j))
          = ((fun j => ev.testBit j && clients (count + j)) ∘ Nat.succ) := by
        funext j
        have harg : count + 1 + j = count + Nat.succ j := by omega
        simp [Function.comp, Nat.testBit_succ, Nat.shiftRight_one, harg]
      have hfun : (fun j => Event.fired (count + 1 + j))
          = ((fun j => Event.fired (count + j)) ∘ Nat.succ) := by
        funext j
        have harg : count + 1 + j = count + Nat.succ j := by omega
        simp [Function.comp, harg]
      rw [hstep, ih, hpred, hfun, List.range_succ_eq_map, List.filter_cons,
        List.filter_map]
      cases hb : ev.testBit 0 <;> cases hc : clients count <;>
        simp only [Nat.testBit_zero, decide_eq_true_eq, decide_eq_false_iff_not] at hb <;>
        simp [pin_handle_interrupt, hb, hc, List.map_map]

/-- C1: every non-plain-GPIO pin-function configuration (UART0/1 RX and TX,
I2C SDA/SCL, PWM output for every timer channel, analog input/output, 32 kHz
clock input) issues exactly one full replacing write to the pin's
multiplex-control register, and the written value is determined by the
function alone, so no field retains a stale value from a previously
selected function. -/
theorem configure_full_replacing_write :
    one_full_replacing_write enable_uart0_rx ∧
    one_full_replacing_write enable_uart0_tx ∧
    one_full_replacing_write enable_uart1_rx ∧
    one_full_replacing_write enable_uart1_tx ∧
    one_full_replacing_write enable_i2c_sda ∧
    one_full_replacing_write enable_i2c_scl ∧
    (∀ t : Timer, one_full_replacing_write (enable_pwm t)) ∧
    one_full_replacing_write enable_analog_input ∧
    one_full_replacing_write enable_analog_output ∧
    one_full_replacing_write enable_32khz_system_clock_input := by
  refine ⟨?_, ?_, ?_, ?_, ?_, ?_, ?_, ?_, ?_, ?_⟩ <;>
    first
      | intro pin s s'; rfl
      | intro t pin s s'; rfl

/-- C2: Port::handle_interrupt emits the snapshot write-back of the
event-flag register first, then the callbacks of exactly the pins whose
snapshot bit is set and that have a registered client, in ascending index
order (pins without a client are silently skipped), and the NVIC
clear-pending and enable calls come only after every callback; the state
update of the event-flag register follows write-1-to-clear semantics, which
clear exactly the written (observed) bits and leave the other bits
untouched. -/
theorem handle_interrupt_dispatch (clients : Nat → Bool) (s : PortState) :
    (port_handle_interrupt clients s).2
        = Event.evflagsWrite s.evflags
            :: (((List.range numPins).filter
                    (fun i => s.evflags.testBit i && clients i)).map Event.fired
                ++ [Event.nvicClearPending, Event.nvicEnable]) ∧
      (port_handle_interrupt clients s).1.evflags = w1cWrite s.evflags s.evflags ∧
      (∀ reg written n : Nat, n < 32 →
        (w1cWrite reg written).testBit n
          = (reg.testBit n && ! written.testBit n)) := by
  refine ⟨?_, rfl, ?_⟩
  · show Event.evflagsWrite s.evflags
        :: (dispatch_loop clients numPins s.evflags 0
            ++ [Event.nvicClearPending, Event.nvicEnable]) = _
    rw [dispatch_loop_eq]
    simp
  · intro reg written n hn
    unfold w1cWrite
    rw [Nat.testBit_land, Nat.testBit_xor, Nat.testBit_two_pow_sub_one,
      Nat.testBit_mod_two_pow]
    simp [hn]

/-- C2 witness: the spec's concrete example, snapshot bits 2, 5 and 9 with
clients on pins 2 and 9 only: pin 2 fires before pin 9, pin 5 is skipped,
and the NVIC calls come last; the write-back clears the observed bit 2. -/
theorem handle_interrupt_dispatch_witness :
    (port_handle_interrupt (fun i => i == 2 || i == 9) { evflags := 548 }).2
        = Event.evflagsWrite 548
            :: ([Event.fired 2, Event.fired 9]
                ++ [Event.nvicClearPending, Event.nvicEnable]) ∧
      (w1cWrite 548 548).testBit 2 = (Nat.testBit 548 2 && ! Nat.testBit 548 2) := by
  have h := handle_interrupt_dispatch (fun i => i == 2 || i == 9) { evflags := 548 }
  exact ⟨h.1.trans (by decide), h.2.2 548 548 2 (by decide)⟩

/-- C3: the configuration query is derived purely from the is_input and
is_output flag readings, by the case table of the spec: Other when neither
is asserted, Output when only output-enable, Input when only input-enable,
InputOutput when both. -/
theorem configuration_from_flags (c : IocConfig) :
    configuration c = query_configuration_spec (is_input c) (is_output c) := by
  unfold configuration query_configuration_spec is_input is_output
  cases isSet c.inputEn <;> rfl

/-- C4 counterexample: at pin 0 from the all-zero state, make_output
performs three register writes, not two. -/
theorem make_output_two_writes_false :
    ¬ (make_output 0 pinState0).2.1.length = 2 := by decide

/-- C4 amended: make_output performs three register writes: a
read-modify-write selecting the GPIO function, a second read-modify-write
clearing input-enable, and then the output-enable (DOE) assertion; both
multiplex-control writes come strictly before the output-enable assertion,
and the call returns the Output configuration. -/
theorem make_output_three_writes (pin : Nat) (s : PinState) :
    (make_output pin s).2.1
        = [Event.iocModify pin { s.cfg with portId := portIdGpio },
           Event.iocModify pin { s.cfg with portId := portIdGpio, inputEn := 0 },
           Event.doeWrite (s.doe ||| (1 <<< pin))] ∧
      (make_output pin s).1
        = { cfg := { s.cfg with portId := portIdGpio, inputEn := 0 },
            doe := s.doe ||| (1 <<< pin) } ∧
      (make_output pin s).2.2 = Configuration.output :=
  ⟨rfl, rfl, rfl⟩

/-- C5: the edge-mode mapping of enable_int is injective on the three edge
inputs, and enable_int sets the edge-detect mode and the edge-IRQ-enable
fields together in one register modify. -/
theorem edge_mode_bijection :
    (∀ m₁ m₂ : InterruptEdge, ioc_edge_mode m₁ = ioc_edge_mode m₂ → m₁ = m₂) ∧
    (∀ (mode : InterruptEdge) (pin : Nat) (s : PinState),
      (enable_int mode pin s).2
          = [Event.iocModify pin
              { s.cfg with edgeDet := ioc_edge_mode mode, edgeIrqEn := 1 }] ∧
        (enable_int mode pin s).1.cfg
          = { s.cfg with edgeDet := ioc_edge_mode mode, edgeIrqEn := 1 }) := by
  constructor
  · intro m₁ m₂
    cases m₁ <;> cases m₂ <;> decide
  · intro mode pin s
    exact ⟨rfl, rfl⟩

/-- C5 witness: the injectivity hypothesis discharged at a concrete pair of
edges, and the single-modify trace at pin 3 of the all-zero state. -/
theorem edge_mode_bijection_witness :
    InterruptEdge.fallingEdge = InterruptEdge.fallingEdge ∧
      (enable_int InterruptEdge.risingEdge 3 pinState0).2
        = [Event.iocModify 3
            { pinState0.cfg with
                edgeDet := ioc_edge_mode InterruptEdge.risingEdge
                edgeIrqEn := 1 }] :=
  ⟨edge_mode_bijection.1 InterruptEdge.fallingEdge InterruptEdge.fallingEdge rfl,
   (edge_mode_bijection.2 InterruptEdge.risingEdge 3 pinState0).1⟩

/-- C6: set_floating_state performs one read-modify-write that updates only
the pull field of the pin's multiplex-control register, for every mode;
function-select, input-enable and drive-strength (and every other field,
by the record update) are unchanged. -/
theorem set_floating_state_pull_only (mode : FloatingState) (pin : Nat)
    (s : PinState) :
    (set_floating_state mode pin s).1.cfg
        = { s.cfg with pull := pull_field mode } ∧
      (set_floating_state mode pin s).2
        = [Event.iocModify pin { s.cfg with pull := pull_field mode }] ∧
      (set_floating_state mode pin s).1.cfg.portId = s.cfg.portId ∧
      (set_floating_state mode pin s).1.cfg.inputEn = s.cfg.inputEn ∧
      (set_floating_state mode pin s).1.cfg.driveStrength = s.cfg.driveStrength :=
  ⟨rfl, rfl, rfl, rfl, rfl⟩

/-- C7: disable_interrupt clears only the edge-IRQ-enable field in one
read-modify-write, so the edge-detect mode field is unchanged, and after
two consecutive calls the edge-detect mode still equals its value before
the first call. -/
theorem disable_interrupt_preserves_edge_mode (pin : Nat) (s : PinState) :
    (disable_interrupt pin s).1.cfg = { s.cfg with edgeIrqEn := 0 } ∧
      (disable_interrupt pin s).2
        = [Event.iocModify pin { s.cfg with edgeIrqEn := 0 }] ∧
      (disable_interrupt pin s).1.cfg.edgeDet = s.cfg.edgeDet ∧
      (disable_interrupt pin (disable_interrupt pin s).1).1.cfg.edgeDet
        = s.cfg.edgeDet :=
  ⟨rfl, rfl, rfl, rfl⟩

/-- C8: disable_input writes no register, leaves the state unchanged and
hence never changes the configuration query, and returns that unchanged
configuration; disable_output always results in the Input configuration,
both as its return value and on a subsequent query. -/
theorem disable_input_output_spec (pin : Nat) (s : PinState) :
    (disable_input pin s).1 = s ∧
      (disable_input pin s).2.1 = [] ∧
      (disable_input pin s).2.2 = configuration s.cfg ∧
      configuration (disable_input pin s).1.cfg = configuration s.cfg ∧
      configuration (disable_output pin s).1.cfg = Configuration.input ∧
      (disable_output pin s).2.2 = Configuration.input :=
  ⟨rfl, rfl, rfl, rfl, rfl, rfl⟩

/-- C9: is_pending never produces a boolean result: for every pin it is the
explicit unsupported-capability error carrying the driver's message. -/
theorem is_pending_unsupported (pin : Nat) :
    is_pending pin = Except.error "Not supported by chip?" := rfl

/-- C10: is_output is exactly the negation of is_input (both read the single
input-enable field), so the configuration query can only return Input or
Output, never Other or InputOutput. -/
theorem is_output_negation_of_is_input (c : IocConfig) :
    is_output c = ! is_input c ∧
      (configuration c = Configuration.input
        ∨ configuration c = Configuration.output) := by
  refine ⟨rfl, ?_⟩
  unfold configuration is_input is_output
  cases isSet c.inputEn
  · exact Or.inr rfl
  · exact Or.inl rfl

end CC26x2Gpio
